import Mathlib

/-!
Shallow embedding of the Disease-Aware Nutrition Advisor of the healthAI
repository (src/app/tools/health_advisor.py and
src/app/tools/health_advisor_simple.py), together with theorems checking
the natural-language specification against it.

Conventions of the embedding:
* Python dictionaries holding JSON-shaped results become Lean structures
  whose field names transliterate the Vietnamese keys.
* Nutrient quantities are rationals (the Python code mixes ints and
  decimal literals such as 2.7; only comparison and integer-delta
  arithmetic is performed on them, so ℚ models them exactly).
* A Python value that may be absent or None becomes an `Option`.
* The database collaborator (`DatabaseHelpers`) is an injected function
  parameter, as the spec treats it as an external collaborator.
-/

namespace HealthAI

/-- Python `str.strip()`: drop leading and trailing whitespace. -/
def pyStrip (s : String) : String :=
  String.mk (((s.data.dropWhile Char.isWhitespace).reverse.dropWhile Char.isWhitespace).reverse)

/-- Python `str.lower()`, restricted to ASCII case mapping.  Every key of
the disease tables below is already lower-case, and the inputs exercised
by the claims contain no upper-case letters outside ASCII, so this is
exact on all inputs considered. -/
def pyLower (s : String) : String := String.mk (s.data.map Char.toLower)

/-- `HealthAdvisorTool.DISEASE_MAP` of src/app/tools/health_advisor.py
(lines 40–54), as an insertion-ordered association list. -/
def DISEASE_MAP : List (String × String) := [
  ("tiểu đường", "Tiểu đường"),
  ("đái tháo đường", "Tiểu đường"),
  ("đường huyết cao", "Tiểu đường"),
  ("diabetes", "Tiểu đường"),
  ("béo", "Béo phì"),
  ("béo phì", "Béo phì"),
  ("thừa cân", "Béo phì"),
  ("obesity", "Béo phì"),
  ("huyết áp", "Huyết áp cao"),
  ("tăng huyết áp", "Huyết áp cao"),
  ("cao huyết áp", "Huyết áp cao"),
  ("huyết áp cao", "Huyết áp cao"),
  ("hypertension", "Huyết áp cao")]

/-- `HealthAdvisorTool._normalize_disease_name` of health_advisor.py
(line 86): `self.DISEASE_MAP.get(disease.strip().lower())`. -/
def normalize_disease_name (disease : String) : Option String :=
  DISEASE_MAP.lookup (pyLower (pyStrip disease))

/-- `HealthAdvisorTool.DISEASE_MAP` of
src/app/tools/health_advisor_simple.py (lines 33–45). -/
def SIMPLE_DISEASE_MAP : List (String × String) := [
  ("tiểu đường", "Tiểu đường"),
  ("đái tháo đường", "Tiểu đường"),
  ("diabetes", "Tiểu đường"),
  ("béo phì", "Béo phì"),
  ("thừa cân", "Béo phì"),
  ("obesity", "Béo phì"),
  ("cao huyết áp", "Huyết áp cao"),
  ("huyết áp cao", "Huyết áp cao"),
  ("hypertension", "Huyết áp cao"),
  ("tim mạch", "Bệnh tim mạch"),
  ("bệnh tim", "Bệnh tim mạch")]

/-- `HealthAdvisorTool._normalize_disease_name` of health_advisor_simple.py
(lines 66–69): `disease.lower().strip()` then the map lookup. -/
def simple_normalize_disease_name (disease : String) : Option String :=
  SIMPLE_DISEASE_MAP.lookup (pyStrip (pyLower disease))

/-- A food's nutrition dictionary: keys "calories", "protein", "carbs",
"fat", "category"; a key that is absent or bound to `None` is `none`. -/
structure NutritionFacts where
  calories : Option ℚ
  protein : Option ℚ
  carbs : Option ℚ
  fat : Option ℚ
  category : Option String
deriving DecidableEq, Repr

/-- The "naturally low-sodium" food-category list hard-coded at
health_advisor.py line 238. -/
def lowSodiumCategories : List String := ["rau", "trái cây", "cá"]

/-- Python `nutrition.get("category") in ["rau", "trái cây", "cá"]`
(`None in l` is `False`). -/
def inLowSodiumCategories (c : Option String) : Bool :=
  match c with
  | some s => lowSodiumCategories.contains s
  | none => false

/-- `HealthAdvisorTool._calculate_safety_score` of health_advisor.py
(lines 185–241).  Missing or null nutrient values read as 0 via
`nutrition.get(k, 0) or 0`. -/
def calculate_safety_score (nutrition : NutritionFacts) (disease : String) : Int :=
  let score : Int := 50
  let calories : ℚ := nutrition.calories.getD 0
  let carbs : ℚ := nutrition.carbs.getD 0
  let fat : ℚ := nutrition.fat.getD 0
  let protein : ℚ := nutrition.protein.getD 0
  let score :=
    if disease = "Tiểu đường" then
      let score := if carbs ≤ 30 then score + 20 else if carbs ≤ 50 then score + 10 else score - 20
      let score := if protein ≥ 15 then score + 15 else score
      if calories ≤ 400 then score + 15 else score
    else if disease = "Béo phì" then
      let score := if calories ≤ 200 then score + 25 else if calories ≤ 400 then score + 10 else score - 25
      if fat ≤ 10 then score + 15 else if fat ≤ 20 then score + 5 else score - 15
    else if disease = "Huyết áp cao" then
      let score := if calories ≤ 300 then score + 15 else score
      let score := if protein ≥ 10 then score + 10 else score
      if inLowSodiumCategories nutrition.category then score + 20 else score
    else score
  max 0 (min 100 score)

/-- The "mức_độ_an_toàn" string set from the score in
`_analyze_food_for_disease` (health_advisor.py lines 167–175). -/
def safety_level (score : Int) : String :=
  if score ≥ 80 then "RẤT AN TOÀN ✅"
  else if score ≥ 60 then "CHẤP NHẬN ĐƯỢC ⚠️"
  else "KHÔNG NÊN ĂN ❌"

/-- The advice line appended alongside the safety level
(health_advisor.py lines 169, 172, 175). -/
def safety_advice (score : Int) : String :=
  if score ≥ 80 then "Món ăn này rất phù hợp với bệnh lý của bạn"
  else if score ≥ 60 then "Có thể ăn nhưng cần hạn chế khẩu phần"
  else "Nên tránh món ăn này"

/-- Rendering of a numeric value inside the breakdown's f-strings;
abstracts Python's number formatting (one fixed injective rendering). -/
def ratStr (q : ℚ) : String := toString q

/-- One entry of the per-nutrient breakdown dictionary
("đánh_giá_từng_chất"): value, optional limit, status label, rationale. -/
structure NutrientEntry where
  gia_tri : String
  gioi_han : Option String
  trang_thai : String
  ly_do : String
deriving DecidableEq, Repr

/-- The breakdown dictionary returned by `_analyze_nutrients_for_disease`:
it holds exactly one key — "carbohydrate", "calo" or "tổng_quan" —
depending on the disease, or is empty. -/
inductive NutrientBreakdown where
  | carbohydrate (e : NutrientEntry)
  | calo (e : NutrientEntry)
  | tong_quan (e : NutrientEntry)
  | empty
deriving DecidableEq, Repr

/-- `HealthAdvisorTool._analyze_nutrients_for_disease` of
health_advisor.py (lines 243–291). -/
def analyze_nutrients_for_disease (nutrition : NutritionFacts) (disease : String) :
    NutrientBreakdown :=
  let calories : ℚ := nutrition.calories.getD 0
  let carbs : ℚ := nutrition.carbs.getD 0
  let protein : ℚ := nutrition.protein.getD 0
  if disease = "Tiểu đường" then
    let status := if carbs ≤ 30 then "AN TOÀN"
      else if carbs ≤ 50 then "CHẤP NHẬN ĐƯỢC" else "NGUY HIỂM"
    .carbohydrate ⟨ratStr carbs ++ "g", some "< 50g/bữa", status,
      "Carbs cao làm tăng đường huyết"⟩
  else if disease = "Béo phì" then
    let status := if calories ≤ 200 then "ÍT CALO"
      else if calories ≤ 400 then "TRUNG BÌNH" else "NHIỀU CALO"
    .calo ⟨ratStr calories ++ " kcal", none, status, "Calo cao dẫn đến tăng cân"⟩
  else if disease = "Huyết áp cao" then
    .tong_quan ⟨ratStr calories ++ " kcal, " ++ ratStr protein ++ "g protein", none,
      "CẦN KIỂM TRA MUỐI", "Cần tránh muối và thực phẩm chế biến sẵn"⟩
  else .empty

/-- `HealthAdvisorTool._get_adjustment_suggestions` of health_advisor.py
(lines 293–317). -/
def get_adjustment_suggestions (nutrition : NutritionFacts) (disease : String) :
    List String :=
  let calories : ℚ := nutrition.calories.getD 0
  let carbs : ℚ := nutrition.carbs.getD 0
  if disease = "Tiểu đường" then
    (if carbs > 45 then ["Giảm khẩu phần xuống 1/2", "Ăn kèm rau xanh để tăng chất xơ"]
     else []) ++ ["Thay cơm trắng bằng gạo lứt nếu có"]
  else if disease = "Béo phì" then
    (if calories > 400 then ["Giảm khẩu phần xuống 2/3", "Tăng rau xanh, giảm carbs"]
     else []) ++ ["Chọn phương pháp nấu hấp, luộc thay vì chiên"]
  else if disease = "Huyết áp cao" then
    ["Yêu cầu nấu ít muối hoặc không muối", "Không thêm nước mắm, tương ớt",
     "Ăn kèm chuối hoặc rau giàu kali"]
  else []

/-- `HealthAdvisorTool._get_fallback_nutrition`'s hard-coded food table
(health_advisor.py lines 321–330), in insertion order. -/
def fallback_food_db : List (String × NutritionFacts) := [
  ("phở bò", ⟨some 450, some 30, some 45, some 15, some "phở"⟩),
  ("cơm trắng", ⟨some 130, some (27/10), some 28, some (3/10), some "cơm"⟩),
  ("bánh mì", ⟨some 400, some 15, some 50, some 18, some "bánh"⟩),
  ("gỏi cuốn", ⟨some 60, some 5, some 8, some 2, some "gỏi"⟩),
  ("cơm tấm", ⟨some 650, some 35, some 70, some 22, some "cơm"⟩),
  ("bún bò huế", ⟨some 550, some 28, some 55, some 20, some "bún"⟩),
  ("bánh xèo", ⟨some 350, some 12, some 40, some 16, some "bánh"⟩),
  ("cháo gà", ⟨some 280, some 20, some 35, some 8, some "cháo"⟩)]

/-- Python's substring test `needle in hay` on strings. -/
def strContains (hay needle : String) : Bool := decide (needle.data <:+: hay.data)

/-- `HealthAdvisorTool._get_fallback_nutrition` of health_advisor.py
(lines 319–338): bidirectional substring fuzzy match over the table,
first hit wins. -/
def get_fallback_nutrition (food_name : String) : Option NutritionFacts :=
  let fl := pyLower food_name
  (fallback_food_db.find? fun p =>
    strContains p.1 fl || strContains fl p.1).map (·.2)

/-- The analysis dictionary built by `_analyze_food_for_disease`
(health_advisor.py lines 148–181) once nutrition facts resolved. -/
structure FoodAnalysis where
  ten : String
  khau_phan : String
  dinh_duong_chi_tiet : NutritionFacts
  phan_tich_cho_benh : String
  diem_so : Int
  muc_do_an_toan : String
  loi_khuyen_cu_the : List String
  danh_gia_tung_chat : NutrientBreakdown
  cach_dieu_chinh : List String
deriving DecidableEq, Repr

/-- Assembles the analysis dictionary of `_analyze_food_for_disease` for
resolved nutrition facts: the score is computed first, the safety level
and advice line are then derived from it (lines 162–181). -/
def mkFoodAnalysis (disease food_name portion_size : String)
    (nutrition : NutritionFacts) : FoodAnalysis :=
  let score := calculate_safety_score nutrition disease
  { ten := food_name
    khau_phan := portion_size
    dinh_duong_chi_tiet := nutrition
    phan_tich_cho_benh := disease
    diem_so := score
    muc_do_an_toan := safety_level score
    loi_khuyen_cu_the := [safety_advice score]
    danh_gia_tung_chat := analyze_nutrients_for_disease nutrition disease
    cach_dieu_chinh := get_adjustment_suggestions nutrition disease }

/-- Result of `_analyze_food_for_disease`: either the "no nutrition data"
error dictionary of lines 141–145 or a full analysis. -/
inductive AnalyzeResult where
  | noData (loi : String) (goi_y : String)
  | analysis (a : FoodAnalysis)
deriving DecidableEq, Repr

/-- `HealthAdvisorTool._analyze_food_for_disease` of health_advisor.py
(lines 131–183).  `dbLookup` is the injected
`DatabaseHelpers.get_food_nutrition` collaborator; when it yields
nothing, the hard-coded fallback table is consulted. -/
def analyze_food_for_disease (dbLookup : String → Option NutritionFacts)
    (disease food_name portion_size : String) : AnalyzeResult :=
  let nutrition_info :=
    match dbLookup food_name with
    | some n => some n
    | none => get_fallback_nutrition food_name
  match nutrition_info with
  | none =>
      .noData ("Không tìm thấy thông tin dinh dưỡng cho \x27" ++ food_name ++ "\x27")
        "Thử với tên món ăn khác như: phở bò, cơm tấm, bánh mì, gỏi cuốn"
  | some nutrition => .analysis (mkFoodAnalysis disease food_name portion_size nutrition)

/-- The error dictionary of `_create_error_response`
(health_advisor.py lines 88–94). -/
structure ErrorResponse where
  loi : String
  ban_nhap : String
  goi_y : String
deriving DecidableEq, Repr

/-- `HealthAdvisorTool._create_error_response` of health_advisor.py
(lines 88–94). -/
def create_error_response (disease : String) : ErrorResponse :=
  { loi := "Hiện tại chỉ hỗ trợ 3 bệnh: Tiểu đường, Béo phì, Huyết áp cao"
    ban_nhap := disease
    goi_y := "Hãy nhập: \x27tiểu đường\x27, \x27béo phì\x27, hoặc \x27huyết áp cao\x27" }

/-- `HealthAdvisorTool._get_critical_nutrients` (lines 340–348). -/
def get_critical_nutrients (disease : String) : List String :=
  if disease = "Tiểu đường" then
    ["Đường", "Tinh bột tinh chế", "Cơm trắng", "Nước ngọt", "Bánh kẹo"]
  else if disease = "Béo phì" then
    ["Chất béo bão hòa", "Đồ chiên rán", "Đồ ăn nhanh", "Nước ngọt có gas", "Bơ thực vật"]
  else if disease = "Huyết áp cao" then
    ["Muối", "Mắm", "Thịt hun khói", "Đồ hộp", "Nước mắm công nghiệp"]
  else []

/-- `HealthAdvisorTool._get_disease_advice` (lines 350–358). -/
def get_disease_advice (disease : String) : String :=
  if disease = "Tiểu đường" then
    "Ăn ít đường, nhiều chất xơ. Chia nhỏ bữa ăn. Kiểm tra đường huyết thường xuyên."
  else if disease = "Béo phì" then
    "Giảm calo, tăng vận động. Ăn nhiều rau, ít chất béo. Uống nhiều nước."
  else if disease = "Huyết áp cao" then
    "Hạn chế muối, tăng kali. Ăn nhiều rau quả. Tránh căng thẳng."
  else "Tham khảo ý kiến bác sĩ chuyên khoa."

/-- `HealthAdvisorTool._get_restricted_foods` (lines 360–368). -/
def get_restricted_foods (disease : String) : List String :=
  if disease = "Tiểu đường" then
    ["Bánh ngọt", "Nước ngọt", "Cơm trắng", "Bánh mì trắng", "Kẹo", "Mật ong", "Trái cây ngọt"]
  else if disease = "Béo phì" then
    ["Đồ chiên", "Bánh kẹo", "Nước ngọt", "Thức ăn nhanh", "Kem", "Bánh quy", "Đồ uống có cồn"]
  else if disease = "Huyết áp cao" then
    ["Muối ăn", "Nước mắm", "Tương ớt", "Thịt hun khói", "Đồ hộp", "Mì gói", "Bánh tráng nướng"]
  else []

/-- `HealthAdvisorTool._get_recommended_foods` (lines 370–378). -/
def get_recommended_foods (disease : String) : List String :=
  if disease = "Tiểu đường" then
    ["Rau xanh", "Cá", "Trứng", "Yến mạch", "Đậu", "Quả bơ", "Hạt óc chó"]
  else if disease = "Béo phì" then
    ["Rau củ", "Trái cây ít đường", "Cá", "Ức gà", "Đậu", "Yến mạch", "Nước lọc"]
  else if disease = "Huyết áp cao" then
    ["Chuối", "Rau bina", "Cá hồi", "Yến mạch", "Đậu đen", "Hạt lanh", "Trà xanh"]
  else []

/-- `HealthAdvisorTool._get_max_calories_per_meal` (lines 380–388). -/
def get_max_calories_per_meal (disease : String) : Int :=
  if disease = "Tiểu đường" then 500
  else if disease = "Béo phì" then 400
  else if disease = "Huyết áp cao" then 600
  else 500

/-- The dictionary returned by the injected
`DatabaseHelpers.get_disease_rules` collaborator, as consumed by
`_get_general_health_advice` (keys read at lines 116–127).  A key that
is absent or bound to `None` is `none`. -/
structure DiseaseRules where
  guidelines : Option String
  foods_to_avoid : Option (List String)
  recommended_foods : Option (List String)
  max_daily_calories : Option Int
deriving DecidableEq, Repr

/-- The general-advice dictionary built by `_get_general_health_advice`
(lines 96–129); the four trailing fields are only present when the
database rules supply them (Python truthiness checks). -/
structure GeneralAdvice where
  benh : String
  canh_bao_nang_nhat : List String
  loi_khuyen_ngan_gon : String
  han_che_nghiem_ngat : List String
  nen_an_nhieu : List String
  calo_toi_da_moi_bua : Int
  thuc_pham_an_toan_hom_nay : List String
  huong_dan_chi_tiet : Option String
  tranh_hoan_toan : Option (List String)
  khuyen_khich : Option (List String)
  gioi_han_calo_ngay : Option Int
deriving DecidableEq, Repr

/-- `HealthAdvisorTool._get_general_health_advice` of health_advisor.py
(lines 96–129).  `rules` is `DatabaseHelpers.get_disease_rules(disease)`
(none also covers a falsy empty dictionary) and `suitable_foods` is
`DatabaseHelpers.get_suitable_foods_for_disease(disease, limit=5)`. -/
def get_general_health_advice (rules : Option DiseaseRules)
    (suitable_foods : List String) (disease : String) : GeneralAdvice :=
  let base : GeneralAdvice :=
    { benh := disease
      canh_bao_nang_nhat := get_critical_nutrients disease
      loi_khuyen_ngan_gon := get_disease_advice disease
      han_che_nghiem_ngat := get_restricted_foods disease
      nen_an_nhieu := get_recommended_foods disease
      calo_toi_da_moi_bua := get_max_calories_per_meal disease
      thuc_pham_an_toan_hom_nay := suitable_foods
      huong_dan_chi_tiet := none
      tranh_hoan_toan := none
      khuyen_khich := none
      gioi_han_calo_ngay := none }
  match rules with
  | none => base
  | some r =>
      { base with
        huong_dan_chi_tiet :=
          match r.guidelines with
          | some g =>
              if g ≠ "" then
                some (if g.length > 300 then g.take 300 ++ "..." else g)
              else none
          | none => none
        tranh_hoan_toan :=
          match r.foods_to_avoid with
          | some l => if l ≠ [] then some (l.take 5) else none
          | none => none
        khuyen_khich :=
          match r.recommended_foods with
          | some l => if l ≠ [] then some (l.take 5) else none
          | none => none
        gioi_han_calo_ngay :=
          match r.max_daily_calories with
          | some c => if c ≠ 0 then some c else none
          | none => none }

/-- Result of `HealthAdvisorTool._run`: an error response for an
unrecognized disease, general advice, or a food analysis. -/
inductive RunResult where
  | error (e : ErrorResponse)
  | general (g : GeneralAdvice)
  | foodAnalysis (r : AnalyzeResult)
deriving DecidableEq, Repr

/-- `HealthAdvisorTool._run` of health_advisor.py (lines 56–82).
The three db* parameters are the injected `DatabaseHelpers`
collaborators.  `food_name` is optional with default `None`; the food
branch is taken when `food_name and food_name.strip()` is truthy. -/
def run_tool (dbNutrition : String → Option NutritionFacts)
    (dbRules : String → Option DiseaseRules) (dbSuitable : String → List String)
    (disease : String) (food_name : Option String) (portion_size : String) :
    RunResult :=
  match normalize_disease_name disease with
  | none => .error (create_error_response disease)
  | some standardized_disease =>
      let hasFood :=
        match food_name with
        | some f => (f != "") && (pyStrip f != "")
        | none => false
      if hasFood then
        .foodAnalysis (analyze_food_for_disease dbNutrition standardized_disease
          (food_name.getD "") portion_size)
      else
        .general (get_general_health_advice (dbRules standardized_disease)
          (dbSuitable standardized_disease) standardized_disease)

/-- The canonical disease categories of spec §3 ("DiseaseCategory"). -/
inductive DiseaseCategory where
  | Diabetes
  | Obesity
  | Hypertension
deriving DecidableEq, Repr

/-- The Vietnamese label the code uses for each canonical category. -/
def canonicalName : DiseaseCategory → String
  | .Diabetes => "Tiểu đường"
  | .Obesity => "Béo phì"
  | .Hypertension => "Huyết áp cao"

/-- Reference scorer written from the spec's words (§4.2): base 50;
mutually-exclusive threshold buckets per category; a flag abstracts
membership of the food's category in the known low-sodium list; final
clamp to [0, 100].  This definition follows the SPEC, not the code; the
refinement theorem for C1 compares it with `calculate_safety_score`. -/
def referenceScore (cat : DiseaseCategory) (calories protein carbs fat : ℚ)
    (lowSodiumCategory : Bool) : Int :=
  let total : Int :=
    match cat with
    | .Diabetes =>
        50 + (if carbs ≤ 30 then 20 else if carbs ≤ 50 then 10 else -20)
           + (if protein ≥ 15 then 15 else 0)
           + (if calories ≤ 400 then 15 else 0)
    | .Obesity =>
        50 + (if calories ≤ 200 then 25 else if calories ≤ 400 then 10 else -25)
           + (if fat ≤ 10 then 15 else if fat ≤ 20 then 5 else -15)
    | .Hypertension =>
        50 + (if calories ≤ 300 then 15 else 0)
           + (if protein ≥ 10 then 10 else 0)
           + (if lowSodiumCategory then 20 else 0)
  max 0 (min 100 total)

/-- `NutritionFacts` with every missing numeric value replaced by an
explicit zero (the substitution the scorer performs internally). -/
def fillZeros (n : NutritionFacts) : NutritionFacts :=
  { calories := some (n.calories.getD 0)
    protein := some (n.protein.getD 0)
    carbs := some (n.carbs.getD 0)
    fat := some (n.fat.getD 0)
    category := n.category }

/-- Is an `AnalyzeResult` a full analysis (as opposed to the
"no nutrition data" error shape)? -/
def AnalyzeResult.isAnalysis : AnalyzeResult → Bool
  | .analysis _ => true
  | .noData _ _ => false

/-- The score carried by an `AnalyzeResult`, when there is one. -/
def AnalyzeResult.score : AnalyzeResult → Option Int
  | .analysis a => some a.diem_so
  | .noData _ _ => none

/-- C1: for every nutrition-facts input and each of the three disease
categories, `_calculate_safety_score` equals the reference piecewise
definition of spec §4.2 (base 50, the per-category threshold buckets,
final clamp to [0, 100]); in particular, for Diabetes with calories 450,
protein 30, carbs 45, fat 15 the score is 75. -/
theorem c1_score_matches_reference_spec :
    (∀ (n : NutritionFacts) (cat : DiseaseCategory),
      calculate_safety_score n (canonicalName cat) =
        referenceScore cat (n.calories.getD 0) (n.protein.getD 0) (n.carbs.getD 0)
          (n.fat.getD 0) (inLowSodiumCategories n.category)) ∧
    calculate_safety_score ⟨some 450, some 30, some 45, some 15, none⟩ "Tiểu đường" = 75 := by
  refine ⟨fun n cat => ?_, by decide⟩
  cases cat <;>
    simp only [calculate_safety_score, referenceScore, canonicalName] <;>
    split_ifs <;> simp_all

/-- C2: the safety tier of the food-analysis result is the Safe string
iff score ≥ 80, the Acceptable string iff 60 ≤ score < 80, and the
Restricted string iff score < 60; and the tier field of the analysis is
always derived from its score field. -/
theorem c2_tier_consistency :
    (∀ s : Int,
      (safety_level s = "RẤT AN TOÀN ✅" ↔ 80 ≤ s) ∧
      (safety_level s = "CHẤP NHẬN ĐƯỢC ⚠️" ↔ 60 ≤ s ∧ s < 80) ∧
      (safety_level s = "KHÔNG NÊN ĂN ❌" ↔ s < 60)) ∧
    (∀ (disease food portion : String) (n : NutritionFacts),
      (mkFoodAnalysis disease food portion n).muc_do_an_toan =
        safety_level (mkFoodAnalysis disease food portion n).diem_so) := by
  constructor
  · intro s
    unfold safety_level
    refine ⟨?_, ?_, ?_⟩ <;> split_ifs <;> constructor <;> intro h <;>
      first
      | rfl
      | omega
      | (exact absurd h (by decide))
  · intro disease food portion n
    rfl

/-- C3: for the Diabetes category, holding the other nutrition fields
fixed, the computed score never increases when carbs increase within
[20, 60]. -/
theorem c3_diabetes_carbs_monotone :
    ∀ (n : NutritionFacts) (c1 c2 : ℚ), 20 ≤ c1 → c1 ≤ c2 → c2 ≤ 60 →
      calculate_safety_score { n with carbs := some c2 } "Tiểu đường" ≤
        calculate_safety_score { n with carbs := some c1 } "Tiểu đường" := by
  intro n c1 c2 h20 h12 h60
  simp only [calculate_safety_score, Option.getD_some]
  split_ifs <;> first | omega | (exfalso; linarith)

/-- Witness for C3 at carbs 20 → 60, phở-bò-like fixed fields. -/
theorem c3_witness :
    (20 : ℚ) ≤ 20 ∧ (20 : ℚ) ≤ 60 ∧ (60 : ℚ) ≤ 60 ∧
    calculate_safety_score ⟨some 450, some 30, some 60, some 15, none⟩ "Tiểu đường" ≤
      calculate_safety_score ⟨some 450, some 30, some 20, some 15, none⟩ "Tiểu đường" :=
  ⟨by norm_num, by norm_num, by norm_num,
    c3_diabetes_carbs_monotone ⟨some 450, some 30, none, some 15, none⟩ 20 60
      (by norm_num) (by norm_num) (by norm_num)⟩

/-- C4 counterexample: in the simple implementation
(health_advisor_simple.py), the synonym table has no entry
"tăng huyết áp", so the normalizer maps it to nothing rather than to
Hypertension, refuting the claim that it maps to Hypertension in each
implementation. -/
theorem c4_counterexample : simple_normalize_disease_name "tăng huyết áp" = none := by
  decide

/-- C4 amended: every string present in either synonym table maps, under
that implementation's normalizer, to its documented canonical category;
"đái tháo đường" → Diabetes and "thừa cân" → Obesity hold in both
implementations, while "tăng huyết áp" → Hypertension holds in the main
implementation only (the simple table does not contain it). -/
theorem c4_synonym_coverage :
    normalize_disease_name "đái tháo đường" = some "Tiểu đường" ∧
    normalize_disease_name "thừa cân" = some "Béo phì" ∧
    normalize_disease_name "tăng huyết áp" = some "Huyết áp cao" ∧
    simple_normalize_disease_name "đái tháo đường" = some "Tiểu đường" ∧
    simple_normalize_disease_name "thừa cân" = some "Béo phì" ∧
    simple_normalize_disease_name "tăng huyết áp" = none ∧
    DISEASE_MAP.all (fun p => normalize_disease_name p.1 == some p.2) = true ∧
    SIMPLE_DISEASE_MAP.all (fun p => simple_normalize_disease_name p.1 == some p.2) = true := by
  decide

/-- C5: whenever the disease text matches no synonym, `_run` returns the
error response — which carries the original input text and names each of
the three supported categories in its message — and never general advice
or a food analysis. -/
theorem c5_unknown_disease_error :
    ∀ (dbN : String → Option NutritionFacts) (dbR : String → Option DiseaseRules)
      (dbS : String → List String) (disease : String) (food : Option String)
      (portion : String),
      normalize_disease_name disease = none →
      run_tool dbN dbR dbS disease food portion = .error (create_error_response disease) ∧
      (create_error_response disease).ban_nhap = disease ∧
      strContains (create_error_response disease).loi "Tiểu đường" = true ∧
      strContains (create_error_response disease).loi "Béo phì" = true ∧
      strContains (create_error_response disease).loi "Huyết áp cao" = true := by
  intro dbN dbR dbS disease food portion h
  refine ⟨?_, rfl, ?_, ?_, ?_⟩
  · simp only [run_tool, h]
  · exact (by decide :
      strContains "Hiện tại chỉ hỗ trợ 3 bệnh: Tiểu đường, Béo phì, Huyết áp cao"
        "Tiểu đường" = true)
  · exact (by decide :
      strContains "Hiện tại chỉ hỗ trợ 3 bệnh: Tiểu đường, Béo phì, Huyết áp cao"
        "Béo phì" = true)
  · exact (by decide :
      strContains "Hiện tại chỉ hỗ trợ 3 bệnh: Tiểu đường, Béo phì, Huyết áp cao"
        "Huyết áp cao" = true)

/-- Witness for C5 at the unsupported disease text of spec §8
("bệnh lạ"). -/
theorem c5_witness :
    normalize_disease_name "bệnh lạ" = none ∧
    run_tool (fun _ => none) (fun _ => none) (fun _ => []) "bệnh lạ" none "1 phần" =
      .error (create_error_response "bệnh lạ") :=
  ⟨by decide,
    (c5_unknown_disease_error (fun _ => none) (fun _ => none) (fun _ => []) "bệnh lạ"
      none "1 phần" (by decide)).1⟩

/-- C6: when neither the database collaborator nor the fallback table
resolves nutrition facts for the food, `_analyze_food_for_disease`
returns the distinct "no nutrition data" error shape, never an analysis
carrying a score, tier or nutrition numbers. -/
theorem c6_missing_food_no_data :
    ∀ (dbN : String → Option NutritionFacts) (disease food portion : String),
      dbN food = none →
      get_fallback_nutrition food = none →
      analyze_food_for_disease dbN disease food portion =
        .noData ("Không tìm thấy thông tin dinh dưỡng cho \x27" ++ food ++ "\x27")
          "Thử với tên món ăn khác như: phở bò, cơm tấm, bánh mì, gỏi cuốn" := by
  intro dbN disease food portion h1 h2
  simp only [analyze_food_for_disease, h1, h2]

/-- Witness for C6 at a food name absent from both sources. -/
theorem c6_witness :
    ((fun _ => none : String → Option NutritionFacts) "pizza" = none) ∧
    get_fallback_nutrition "pizza" = none ∧
    analyze_food_for_disease (fun _ => none) "Tiểu đường" "pizza" "1 phần" =
      .noData ("Không tìm thấy thông tin dinh dưỡng cho \x27" ++ "pizza" ++ "\x27")
        "Thử với tên món ăn khác như: phở bò, cơm tấm, bánh mì, gỏi cuốn" :=
  ⟨rfl, by decide,
    c6_missing_food_no_data (fun _ => none) "Tiểu đường" "pizza" "1 phần" rfl (by decide)⟩

/-- C7 counterexample: for nutrition facts with negative calories (−100)
and negative fat (−5), the analysis does not reject the input: it
proceeds to compute a score — for Obesity the negative values even land
in the most favourable buckets, yielding score 90. -/
theorem c7_counterexample :
    (analyze_food_for_disease
        (fun _ => some ⟨some (-100), some 0, some 0, some (-5), none⟩)
        "Béo phì" "món âm" "1 phần").isAnalysis = true ∧
    (analyze_food_for_disease
        (fun _ => some ⟨some (-100), some 0, some 0, some (-5), none⟩)
        "Béo phì" "món âm" "1 phần").score = some 90 := by
  constructor <;> decide

/-- C7 amended: the food analysis performs no domain validation at all:
whenever nutrition facts resolve (negative values included), it always
proceeds to build the full analysis, applying the scoring formula to the
values as given; only the final score is clamped to [0, 100]. -/
theorem c7_no_boundary_rejection :
    ∀ (n : NutritionFacts) (disease food portion : String),
      analyze_food_for_disease (fun _ => some n) disease food portion =
        .analysis (mkFoodAnalysis disease food portion n) :=
  fun _ _ _ _ => rfl

/-- C8 counterexample: with the carbs value missing, the Diabetes
breakdown (and the score) are byte-identical to those produced when an
explicit zero is supplied, so the breakdown carries no note of the
zero-substitution. -/
theorem c8_counterexample :
    analyze_nutrients_for_disease ⟨some 100, some 10, none, some 5, none⟩ "Tiểu đường" =
      analyze_nutrients_for_disease ⟨some 100, some 10, some 0, some 5, none⟩ "Tiểu đường" ∧
    calculate_safety_score ⟨some 100, some 10, none, some 5, none⟩ "Tiểu đường" =
      calculate_safety_score ⟨some 100, some 10, some 0, some 5, none⟩ "Tiểu đường" :=
  ⟨rfl, rfl⟩

/-- C8 amended: a missing or null nutrient value is treated as zero by
both the scorer and the per-nutrient breakdown (neither fails), and the
outputs are exactly those for an explicitly supplied zero — no
substitution note is added anywhere. -/
theorem c8_missing_treated_as_zero :
    ∀ (n : NutritionFacts) (disease : String),
      calculate_safety_score (fillZeros n) disease = calculate_safety_score n disease ∧
      analyze_nutrients_for_disease (fillZeros n) disease =
        analyze_nutrients_for_disease n disease := by
  intro n disease
  constructor <;>
    simp [calculate_safety_score, analyze_nutrients_for_disease, fillZeros]

/-- C9 counterexample: for the recognized category Diabetes, the
general-advice result's foods-to-avoid and preferred-foods lists do not
respect the claimed 5-item bound. -/
theorem c9_counterexample :
    ¬ ((get_general_health_advice none [] "Tiểu đường").han_che_nghiem_ngat.length ≤ 5 ∧
       (get_general_health_advice none [] "Tiểu đường").nen_an_nhieu.length ≤ 5) := by
  decide

/-- C9 amended: for each of the three recognized categories, the
hard-coded foods-to-avoid and preferred-foods lists of the
general-advice result contain exactly 7 items; only the optional
database-derived lists (tránh_hoàn_toàn, khuyến_khích) are truncated to
at most 5 items. -/
theorem c9_list_lengths :
    ∀ (rules : Option DiseaseRules) (suitable : List String) (d : String),
      d = "Tiểu đường" ∨ d = "Béo phì" ∨ d = "Huyết áp cao" →
      (get_general_health_advice rules suitable d).han_che_nghiem_ngat.length = 7 ∧
      (get_general_health_advice rules suitable d).nen_an_nhieu.length = 7 ∧
      ((get_general_health_advice rules suitable d).tranh_hoan_toan.getD []).length ≤ 5 ∧
      ((get_general_health_advice rules suitable d).khuyen_khich.getD []).length ≤ 5 := by
  intro rules suitable d hd
  rcases rules with _ | ⟨g, fa, rf, mc⟩
  · rcases hd with rfl | rfl | rfl <;>
      simp [get_general_health_advice, get_restricted_foods, get_recommended_foods]
  · rcases fa with _ | l1 <;> rcases rf with _ | l2 <;>
      rcases hd with rfl | rfl | rfl <;>
      simp [get_general_health_advice, get_restricted_foods, get_recommended_foods,
        List.length_take] <;>
      try (split_ifs <;> simp [List.length_take])

/-- Witness for C9 at Diabetes with a database rule set supplying
oversized lists. -/
theorem c9_witness :
    ("Tiểu đường" = "Tiểu đường" ∨ "Tiểu đường" = "Béo phì" ∨
      "Tiểu đường" = "Huyết áp cao") ∧
    (get_general_health_advice
        (some ⟨some "hd", some ["a", "b", "c", "d", "e", "f", "g"], some ["x"], some 1500⟩)
        ["s"] "Tiểu đường").han_che_nghiem_ngat.length = 7 ∧
    (get_general_health_advice
        (some ⟨some "hd", some ["a", "b", "c", "d", "e", "f", "g"], some ["x"], some 1500⟩)
        ["s"] "Tiểu đường").nen_an_nhieu.length = 7 ∧
    ((get_general_health_advice
        (some ⟨some "hd", some ["a", "b", "c", "d", "e", "f", "g"], some ["x"], some 1500⟩)
        ["s"] "Tiểu đường").tranh_hoan_toan.getD []).length ≤ 5 ∧
    ((get_general_health_advice
        (some ⟨some "hd", some ["a", "b", "c", "d", "e", "f", "g"], some ["x"], some 1500⟩)
        ["s"] "Tiểu đường").khuyen_khich.getD []).length ≤ 5 :=
  ⟨Or.inl rfl,
    c9_list_lengths
      (some ⟨some "hd", some ["a", "b", "c", "d", "e", "f", "g"], some ["x"], some 1500⟩)
      ["s"] "Tiểu đường" (Or.inl rfl)⟩

/-- Every character of the string is whitespace (covers the empty
string). -/
def onlyWhitespace (s : String) : Prop := ∀ c ∈ s.data, c.isWhitespace

instance onlyWhitespaceDecidable (s : String) : Decidable (onlyWhitespace s) :=
  inferInstanceAs (Decidable (∀ c ∈ s.data, c.isWhitespace = true))

theorem pyStrip_eq_empty_of_whitespace (s : String) (h : onlyWhitespace s) :
    pyStrip s = "" := by
  unfold pyStrip
  have h1 : s.data.dropWhile Char.isWhitespace = [] :=
    List.dropWhile_eq_nil_iff.mpr h
  rw [h1]
  rfl

/-- C10: for a disease text that normalizes to a recognized category,
invoking `_run` with an empty or whitespace-only food name yields
exactly the same general-advice result as invoking it with no food name
at all. -/
theorem c10_blank_food_name_ignored :
    ∀ (dbN : String → Option NutritionFacts) (dbR : String → Option DiseaseRules)
      (dbS : String → List String) (disease d ws portion : String),
      normalize_disease_name disease = some d →
      onlyWhitespace ws →
      run_tool dbN dbR dbS disease (some ws) portion =
        run_tool dbN dbR dbS disease none portion := by
  intro dbN dbR dbS disease d ws portion hn hws
  have hstrip : pyStrip ws = "" := pyStrip_eq_empty_of_whitespace ws hws
  simp [run_tool, hn, hstrip]

/-- Witness for C10 at disease "tiểu đường" and a three-space food
name. -/
theorem c10_witness :
    normalize_disease_name "tiểu đường" = some "Tiểu đường" ∧
    onlyWhitespace "   " ∧
    run_tool (fun _ => none) (fun _ => none) (fun _ => []) "tiểu đường" (some "   ")
        "1 phần" =
      run_tool (fun _ => none) (fun _ => none) (fun _ => []) "tiểu đường" none "1 phần" :=
  ⟨by decide, by decide,
    c10_blank_food_name_ignored (fun _ => none) (fun _ => none) (fun _ => [])
      "tiểu đường" "Tiểu đường" "   " "1 phần" (by decide) (by decide)⟩

end HealthAI
